import Mathlib

/-!
Verification of the timer core of BrowserClickCounter (`timer.py`).

Shallow embedding conventions:
* Wall-clock instants (`time.time()` / `datetime.now()`) are modelled as
  rationals; each operation that reads the clock takes the current instant
  `now : ℚ` as an explicit argument.
* Python `float` truthiness (`if self.start_time:`) is modelled faithfully:
  `None` and `0.0` are falsy, so an `Option ℚ` is "truthy" iff it is
  `some x` with `x ≠ 0`.  `datetime` objects are always truthy, so for
  `SessionTimer` truthiness of such a field is `Option.isSome`.
* Callbacks are modelled by the list of callback events an operation fires
  (in order); a separate exception-aware variant of each operation models
  the `try: callback() except Exception: pass` call sites for the
  callback-containment claim.
-/

set_option autoImplicit false

namespace BrowserClickCounter

/-- Python `int(x)` applied to a real-valued quantity: truncation toward
zero (`math.floor` for nonnegative values, `math.ceil` for negative). -/
def pyInt (q : ℚ) : Int := if 0 ≤ q then ⌊q⌋ else ⌈q⌉

/-- `TimerState` enumeration from `timer.py`. -/
inductive TimerState where
  | stopped
  | running
  | paused
  | completed
deriving DecidableEq, Repr

/-- The callback events a `CountdownTimer` operation can fire, with the
arguments passed to the registered callback. -/
inductive TimerEvent where
  | on_tick (minutes seconds : Int)
  | on_complete
  | on_start
  | on_pause
  | on_resume
  | on_reset
  | on_duration_change (minutes : Int)
deriving DecidableEq, Repr

/-- Mutable fields of `SessionTimer` (`timer.py`, lines 23-26). -/
structure SessionTimer where
  start_time : Option ℚ
  paused_time : Option ℚ
  total_paused_duration : ℚ
deriving DecidableEq, Repr

namespace SessionTimer

/-- `SessionTimer.__init__`. -/
def init : SessionTimer :=
  { start_time := none, paused_time := none, total_paused_duration := 0 }

/-- `SessionTimer.start` (lines 28-31): captures `now` only when
`start_time is None`, also resetting `total_paused_duration`. -/
def start (s : SessionTimer) (now : ℚ) : SessionTimer :=
  if s.start_time = none then
    { s with start_time := some now, total_paused_duration := 0 }
  else s

/-- `SessionTimer.pause` (lines 33-35): records the pause instant when
started and not already paused (`datetime` truthiness is `isSome`). -/
def pause (s : SessionTimer) (now : ℚ) : SessionTimer :=
  if s.start_time.isSome ∧ ¬ s.paused_time.isSome then
    { s with paused_time := some now }
  else s

/-- `SessionTimer.resume` (lines 37-41): folds the closed pause interval
into `total_paused_duration` and clears `paused_time`. -/
def resume (s : SessionTimer) (now : ℚ) : SessionTimer :=
  match s.paused_time with
  | some pt =>
      { s with total_paused_duration := s.total_paused_duration + (now - pt),
               paused_time := none }
  | none => s

/-- `SessionTimer.stop` (lines 43-46). -/
def stop (_ : SessionTimer) : SessionTimer :=
  { start_time := none, paused_time := none, total_paused_duration := 0 }

/-- `SessionTimer.reset` (lines 48-51). -/
def reset (_ : SessionTimer) : SessionTimer :=
  { start_time := none, paused_time := none, total_paused_duration := 0 }

/-- `SessionTimer.is_paused` (lines 53-54). -/
def is_paused (s : SessionTimer) : Bool := s.paused_time.isSome

/-- `SessionTimer.elapsed_seconds` (lines 56-71). -/
def elapsed_seconds (s : SessionTimer) (now : ℚ) : Int :=
  match s.start_time with
  | none => 0
  | some st =>
      let total_elapsed := now - st
      let active_elapsed := total_elapsed - s.total_paused_duration
      let active_elapsed2 :=
        match s.paused_time with
        | some pt => active_elapsed - (now - pt)
        | none => active_elapsed
      max 0 (pyInt active_elapsed2)

/-- One `SessionTimer` API call together with the clock value at which it
is made (only `pause`/`resume` read the clock besides `start`). -/
inductive Op where
  | start (now : ℚ)
  | pause (now : ℚ)
  | resume (now : ℚ)
  | stop
  | reset
deriving DecidableEq, Repr

/-- Apply one API call to a `SessionTimer` state. -/
def apply (s : SessionTimer) : Op → SessionTimer
  | .start now => s.start now
  | .pause now => s.pause now
  | .resume now => s.resume now
  | .stop => s.stop
  | .reset => s.reset

/-- Run a sequence of API calls from a given state. -/
def run (s : SessionTimer) (ops : List Op) : SessionTimer :=
  ops.foldl apply s

end SessionTimer

/-- Fields of `CountdownTimer` (`timer.py`, lines 87-113).  The callback
dictionary is not part of the state: operations instead report the events
they fire. -/
structure CountdownTimer where
  default_duration_minutes : Int
  duration_minutes : Int
  duration_seconds : Int
  state : TimerState
  remaining_seconds : ℚ
  start_time : Option ℚ
  pause_time : Option ℚ
  elapsed_when_paused : ℚ
  last_update_time : Option ℚ
  update_interval : ℚ
deriving DecidableEq, Repr

namespace CountdownTimer

/-- `CountdownTimer.__init__` (lines 87-113). -/
def init (default_duration_minutes : Int) : CountdownTimer :=
  { default_duration_minutes := default_duration_minutes
    duration_minutes := default_duration_minutes
    duration_seconds := default_duration_minutes * 60
    state := .stopped
    remaining_seconds := ((default_duration_minutes * 60 : Int) : ℚ)
    start_time := none
    pause_time := none
    elapsed_when_paused := 0
    last_update_time := none
    update_interval := 1 }

/-- `CountdownTimer.set_duration` (lines 115-143).  The `isinstance(minutes,
int)` guard is absorbed by typing `minutes : Int`. -/
def set_duration (t : CountdownTimer) (minutes : Int) :
    CountdownTimer × Bool × List TimerEvent :=
  if minutes < 1 ∨ minutes > 60 then (t, false, [])
  else if t.state ≠ .stopped then (t, false, [])
  else
    ({ t with duration_minutes := minutes
              duration_seconds := minutes * 60
              remaining_seconds := ((minutes * 60 : Int) : ℚ) },
     true, [.on_duration_change minutes])

/-- `CountdownTimer.start` (lines 145-184). -/
def start (t : CountdownTimer) (now : ℚ) :
    CountdownTimer × Bool × List TimerEvent :=
  if t.state = .running then (t, false, [])
  else if t.state = .paused then
    ({ t with start_time := some (now - t.elapsed_when_paused)
              pause_time := none
              state := .running
              last_update_time := some now },
     true, [.on_resume])
  else
    ({ t with start_time := some now
              elapsed_when_paused := 0
              remaining_seconds := (t.duration_seconds : ℚ)
              state := .running
              last_update_time := some now },
     true, [.on_start])

/-- `CountdownTimer.pause` (lines 186-211).  The `if self.start_time:`
guard is float truthiness: skipped when `start_time` is `None` or `0.0`. -/
def pause (t : CountdownTimer) (now : ℚ) :
    CountdownTimer × Bool × List TimerEvent :=
  if t.state ≠ .running then (t, false, [])
  else
    let t1 := { t with pause_time := some now }
    let t2 :=
      match t1.start_time with
      | some st => if st = 0 then t1 else { t1 with elapsed_when_paused := now - st }
      | none => t1
    ({ t2 with state := .paused }, true, [.on_pause])

/-- `CountdownTimer.resume` (lines 213-215) just delegates to `start`. -/
def resume (t : CountdownTimer) (now : ℚ) :
    CountdownTimer × Bool × List TimerEvent :=
  t.start now

/-- `CountdownTimer.reset` (lines 217-238). -/
def reset (t : CountdownTimer) :
    CountdownTimer × Bool × List TimerEvent :=
  ({ t with state := .stopped
            remaining_seconds := (t.duration_seconds : ℚ)
            start_time := none
            pause_time := none
            elapsed_when_paused := 0
            last_update_time := none },
   true, [.on_reset])

/-- `CountdownTimer.get_remaining_time` (lines 289-299): Python `//` is
flooring division and `%` with a positive modulus is `Int.emod`. -/
def get_remaining_time (t : CountdownTimer) : Int × Int :=
  let total_seconds := pyInt t.remaining_seconds
  (total_seconds.fdiv 60, total_seconds.emod 60)

/-- The throttle test of `CountdownTimer.update` (lines 253-255):
`self.last_update_time and current_time - self.last_update_time <
self.update_interval`, with `last_update_time` under float truthiness. -/
def throttle_hit (t : CountdownTimer) (now : ℚ) : Bool :=
  match t.last_update_time with
  | some lu => decide (lu ≠ 0) && decide (now - lu < t.update_interval)
  | none => false

/-- Lines 260-287 of `CountdownTimer.update`, once the guards have passed
(`RUNNING`, unthrottled, truthy `start_time = some st`): recompute
`remaining_seconds = max(0, duration - (now - st))`; on 0 complete the
timer, otherwise fire a tick on the updated timer and stamp
`last_update_time`. -/
def update_run (t : CountdownTimer) (now st : ℚ) :
    CountdownTimer × Bool × List TimerEvent :=
  if max 0 ((t.duration_seconds : ℚ) - (now - st)) ≤ (0 : ℚ) then
    ({ t with remaining_seconds := 0, state := .completed },
     false, [.on_complete])
  else
    ({ t with
        remaining_seconds := max 0 ((t.duration_seconds : ℚ) - (now - st)),
        last_update_time := some now },
     true,
     [.on_tick
       ({ t with
          remaining_seconds := max 0 ((t.duration_seconds : ℚ) - (now - st)) } :
            CountdownTimer).get_remaining_time.1
       ({ t with
          remaining_seconds := max 0 ((t.duration_seconds : ℚ) - (now - st)) } :
            CountdownTimer).get_remaining_time.2])

/-- `CountdownTimer.update` (lines 240-287).  Both `if self.last_update_time
and ...:` and `if not self.start_time:` are float truthiness tests. -/
def update (t : CountdownTimer) (now : ℚ) :
    CountdownTimer × Bool × List TimerEvent :=
  if t.state ≠ .running then (t, decide (t.state ≠ .completed), [])
  else if t.throttle_hit now then (t, true, [])
  else
    match t.start_time with
    | none => (t, true, [])
    | some st =>
        if st = 0 then (t, true, [])
        else t.update_run now st

/-- `CountdownTimer.get_progress_percentage` (lines 301-312): no lower
clamp in the source, only `min(100.0, ...)`. -/
def get_progress_percentage (t : CountdownTimer) : ℚ :=
  if t.duration_seconds = 0 then 100
  else
    min 100 (((t.duration_seconds : ℚ) - t.remaining_seconds) /
      (t.duration_seconds : ℚ) * 100)

end CountdownTimer

/-- The callback dictionary keys of `CountdownTimer` (lines 101-109). -/
inductive CallbackSlot where
  | on_tick
  | on_complete
  | on_start
  | on_pause
  | on_resume
  | on_reset
  | on_duration_change
deriving DecidableEq, Repr

/-- Which callback slots hold a registered handler, and whether that handler
raises an exception when invoked. -/
structure CallbackEnv where
  registered : CallbackSlot → Bool
  raises : CallbackSlot → Bool

/-- One `if self.callbacks[k]: try: self.callbacks[k](...) except Exception:
pass` call site (e.g. lines 136-141): the handler runs only when registered,
a raising handler produces an exception, and the `except` clause catches
and discards it. -/
def fire_contained (env : CallbackEnv) (k : CallbackSlot) : Except Unit Unit :=
  if env.registered k then
    match (if env.raises k then Except.error () else Except.ok () :
           Except Unit Unit) with
    | .ok u => .ok u
    | .error _ => .ok ()
  else .ok ()

namespace CountdownTimer

/-- `set_duration` with its callback call site made exception-aware. -/
def set_durationE (env : CallbackEnv) (t : CountdownTimer) (minutes : Int) :
    Except Unit (CountdownTimer × Bool) :=
  if minutes < 1 ∨ minutes > 60 then .ok (t, false)
  else if t.state ≠ .stopped then .ok (t, false)
  else
    let t1 := { t with duration_minutes := minutes
                       duration_seconds := minutes * 60
                       remaining_seconds := ((minutes * 60 : Int) : ℚ) }
    match fire_contained env .on_duration_change with
    | .error e => .error e
    | .ok _ => .ok (t1, true)

/-- `start` with its callback call sites made exception-aware. -/
def startE (env : CallbackEnv) (t : CountdownTimer) (now : ℚ) :
    Except Unit (CountdownTimer × Bool) :=
  if t.state = .running then .ok (t, false)
  else if t.state = .paused then
    let t1 := { t with start_time := some (now - t.elapsed_when_paused)
                       pause_time := none
                       state := .running }
    match fire_contained env .on_resume with
    | .error e => .error e
    | .ok _ => .ok ({ t1 with last_update_time := some now }, true)
  else
    let t1 := { t with start_time := some now
                       elapsed_when_paused := 0
                       remaining_seconds := (t.duration_seconds : ℚ)
                       state := .running }
    match fire_contained env .on_start with
    | .error e => .error e
    | .ok _ => .ok ({ t1 with last_update_time := some now }, true)

/-- `pause` with its callback call site made exception-aware. -/
def pauseE (env : CallbackEnv) (t : CountdownTimer) (now : ℚ) :
    Except Unit (CountdownTimer × Bool) :=
  if t.state ≠ .running then .ok (t, false)
  else
    let t1 := { t with pause_time := some now }
    let t2 :=
      match t1.start_time with
      | some st => if st = 0 then t1 else { t1 with elapsed_when_paused := now - st }
      | none => t1
    let t3 := { t2 with state := TimerState.paused }
    match fire_contained env .on_pause with
    | .error e => .error e
    | .ok _ => .ok (t3, true)

/-- `reset` with its callback call site made exception-aware. -/
def resetE (env : CallbackEnv) (t : CountdownTimer) :
    Except Unit (CountdownTimer × Bool) :=
  let t1 := { t with state := TimerState.stopped
                     remaining_seconds := (t.duration_seconds : ℚ)
                     start_time := none
                     pause_time := none
                     elapsed_when_paused := 0
                     last_update_time := none }
  match fire_contained env .on_reset with
  | .error e => .error e
  | .ok _ => .ok (t1, true)

/-- The body `update_run` with its callback call sites made
exception-aware. -/
def update_runE (env : CallbackEnv) (t : CountdownTimer) (now st : ℚ) :
    Except Unit (CountdownTimer × Bool) :=
  if max 0 ((t.duration_seconds : ℚ) - (now - st)) ≤ (0 : ℚ) then
    match fire_contained env .on_complete with
    | .error e => .error e
    | .ok _ =>
        .ok ({ t with remaining_seconds := 0, state := .completed }, false)
  else
    match fire_contained env .on_tick with
    | .error e => .error e
    | .ok _ =>
        .ok ({ t with
                remaining_seconds :=
                  max 0 ((t.duration_seconds : ℚ) - (now - st)),
                last_update_time := some now },
             true)

/-- `update` with its callback call sites made exception-aware. -/
def updateE (env : CallbackEnv) (t : CountdownTimer) (now : ℚ) :
    Except Unit (CountdownTimer × Bool) :=
  if t.state ≠ .running then .ok (t, decide (t.state ≠ .completed))
  else if t.throttle_hit now then .ok (t, true)
  else
    match t.start_time with
    | none => .ok (t, true)
    | some st =>
        if st = 0 then .ok (t, true)
        else update_runE env t now st

/-- States of `CountdownTimer` reachable from construction through API
calls made at positive, nondecreasing clock instants.  `CReach t now`
means `t` is reachable and `now` is a current clock value: `tick_clock`
lets time pass between calls, and every call happens at the current
instant. -/
inductive CReach : CountdownTimer → ℚ → Prop where
  | construct (d : Int) (t0 : ℚ) (h : 0 < t0) : CReach (init d) t0
  | tick_clock {t : CountdownTimer} {now nowB : ℚ} (h : CReach t now)
      (hle : now ≤ nowB) : CReach t nowB
  | set_duration_step {t : CountdownTimer} {now : ℚ} (m : Int)
      (h : CReach t now) : CReach (t.set_duration m).1 now
  | start_step {t : CountdownTimer} {now : ℚ} (h : CReach t now) :
      CReach (t.start now).1 now
  | pause_step {t : CountdownTimer} {now : ℚ} (h : CReach t now) :
      CReach (t.pause now).1 now
  | reset_step {t : CountdownTimer} {now : ℚ} (h : CReach t now) :
      CReach t.reset.1 now
  | update_step {t : CountdownTimer} {now : ℚ} (h : CReach t now) :
      CReach (t.update now).1 now

/-- Invariants maintained by every reachable `CountdownTimer` state at
clock instant `now`. -/
structure Inv (t : CountdownTimer) (now : ℚ) : Prop where
  now_pos : 0 < now
  interval_eq : t.update_interval = 1
  start_bound : ∀ st, t.start_time = some st → 0 < st ∧ st ≤ now
  lu_bound : ∀ lu, t.last_update_time = some lu → 0 < lu ∧ lu ≤ now
  elapsed_nonneg : 0 ≤ t.elapsed_when_paused
  elapsed_lt : t.elapsed_when_paused < now
  run_start : t.state = .running → t.start_time.isSome
  comp_rem : t.state = .completed → t.remaining_seconds = 0
  rem_range : t.remaining_seconds = (t.duration_seconds : ℚ) ∨
      (0 ≤ t.remaining_seconds ∧
        t.remaining_seconds ≤ (t.duration_seconds : ℚ)) ∨
      ((t.duration_seconds : ℚ) ≤ 0 ∧ t.remaining_seconds = 0)
  run_rem : t.state = .running → ∀ st, t.start_time = some st →
      (t.duration_seconds : ℚ) - (now - st) ≤ t.remaining_seconds
  paused_rem : t.state = .paused →
      (t.duration_seconds : ℚ) - t.elapsed_when_paused ≤ t.remaining_seconds

/-- The spec's reading of `get_progress_percentage`: `100 * elapsed /
duration` clamped to `[0, 100]`, with duration 0 defined as 100%. -/
def progress_spec (t : CountdownTimer) : ℚ :=
  if t.duration_seconds = 0 then 100
  else max 0 (min 100
    (((t.duration_seconds : ℚ) - t.remaining_seconds) /
      (t.duration_seconds : ℚ) * 100))

end CountdownTimer

/-- The C10 invariant: a pending pause instant implies the session was
started. -/
def PausedImpliesStarted (s : SessionTimer) : Prop :=
  s.paused_time.isSome → s.start_time.isSome

/-- Concrete `SessionTimer` state used to witness C7: started at instant 2,
one closed pause of total length 1, currently paused since instant 8. -/
def sampleSession : SessionTimer :=
  { start_time := some 2, paused_time := some 8, total_paused_duration := 1 }

/-- Concrete reachable running timer: the default 5-minute countdown
(duration 300 seconds) started fresh at instant 1. -/
def sampleRunning : CountdownTimer := ((CountdownTimer.init 5).start 1).1

/-- Concrete reachable completed timer: a 1-minute countdown started at
instant 1 and updated at instant 62, past its duration. -/
def sampleCompleted : CountdownTimer :=
  (((CountdownTimer.init 1).start 1).1.update 62).1

lemma fire_contained_eq_ok (env : CallbackEnv) (k : CallbackSlot) :
    fire_contained env k = Except.ok () := by
  unfold fire_contained
  cases h1 : env.registered k <;> cases h2 : env.raises k <;> simp [h1, h2]

/-- Claim C9: for every CountdownTimer operation that invokes a registered
callback (`set_duration`, `start`, `pause`, `reset`, `update`), a callback
that raises does not propagate the exception to the caller, and the
operation's resulting timer state and boolean return value are identical to
what they would be had the callback not raised: every exception-aware run
returns `Except.ok` of exactly the state and flag of the callback-free
semantics, for every registration/raising behaviour of the handlers. -/
theorem c9_callback_exceptions_contained :
    ∀ (env : CallbackEnv) (t : CountdownTimer) (m : Int) (now : ℚ),
      CountdownTimer.set_durationE env t m =
        Except.ok ((t.set_duration m).1, (t.set_duration m).2.1) ∧
      CountdownTimer.startE env t now =
        Except.ok ((t.start now).1, (t.start now).2.1) ∧
      CountdownTimer.pauseE env t now =
        Except.ok ((t.pause now).1, (t.pause now).2.1) ∧
      CountdownTimer.resetE env t =
        Except.ok (t.reset.1, t.reset.2.1) ∧
      CountdownTimer.updateE env t now =
        Except.ok ((t.update now).1, (t.update now).2.1) := by
  intro env t m now
  refine ⟨?_, ?_, ?_, ?_, ?_⟩
  · unfold CountdownTimer.set_durationE CountdownTimer.set_duration
    split_ifs <;> simp [fire_contained_eq_ok]
  · unfold CountdownTimer.startE CountdownTimer.start
    split_ifs <;> simp [fire_contained_eq_ok]
  · unfold CountdownTimer.pauseE CountdownTimer.pause
    split_ifs <;> simp [fire_contained_eq_ok]
  · unfold CountdownTimer.resetE CountdownTimer.reset
    simp [fire_contained_eq_ok]
  · unfold CountdownTimer.updateE CountdownTimer.update
      CountdownTimer.update_runE CountdownTimer.update_run
    split_ifs <;> rcases h : t.start_time with _ | st <;>
      simp [fire_contained_eq_ok] <;> split_ifs <;>
      simp [fire_contained_eq_ok]

/-- Claim C7: `SessionTimer.elapsed_seconds` returns 0 when the timer has
never been started; otherwise it returns `(now - start_time) -
total_paused_duration`, additionally minus the currently open pause
interval `(now - paused_time)` when paused, truncated to integer seconds
and clamped to be nonnegative; and the result is nonnegative in every
state. -/
theorem c7_elapsed_seconds_spec (s : SessionTimer) (now : ℚ) :
    (s.start_time = none → s.elapsed_seconds now = 0) ∧
    (∀ st, s.start_time = some st →
      (s.paused_time = none →
        s.elapsed_seconds now =
          max 0 (pyInt ((now - st) - s.total_paused_duration))) ∧
      (∀ pt, s.paused_time = some pt →
        s.elapsed_seconds now =
          max 0 (pyInt ((now - st) - s.total_paused_duration - (now - pt))))) ∧
    0 ≤ s.elapsed_seconds now := by
  refine ⟨?_, ?_, ?_⟩
  · intro h
    simp [SessionTimer.elapsed_seconds, h]
  · intro st hst
    constructor
    · intro hpt
      simp [SessionTimer.elapsed_seconds, hst, hpt]
    · intro pt hpt
      simp [SessionTimer.elapsed_seconds, hst, hpt]
  · unfold SessionTimer.elapsed_seconds
    rcases h : s.start_time with _ | st
    · exact le_refl 0
    · rcases h2 : s.paused_time with _ | pt <;> simp

/-- Witness for C7 at `sampleSession` and `now = 10`: the reported elapsed
time is `max 0 (int((10 - 2) - 1 - (10 - 8))) = 5` and is nonnegative. -/
theorem c7_elapsed_seconds_spec_witness :
    sampleSession.elapsed_seconds 10 =
      max 0 (pyInt ((10 - 2) - 1 - (10 - 8))) ∧
    0 ≤ sampleSession.elapsed_seconds 10 := by
  have h := c7_elapsed_seconds_spec sampleSession 10
  exact ⟨((h.2.1 2 rfl).2 8 rfl), h.2.2⟩

/-- Claim C8: `SessionTimer.start` is idempotent once started: when
`start_time` is already set, calling `start` again leaves the whole record
unchanged (so elapsed time keeps growing from the original start
instant). -/
theorem c8_session_start_idempotent (s : SessionTimer) (now : ℚ) :
    s.start_time.isSome → s.start now = s := by
  intro h
  unfold SessionTimer.start
  rcases h2 : s.start_time with _ | st
  · rw [h2] at h
    simp at h
  · simp [h2]

/-- Witness for C8: starting `sampleSession` (already started at instant 2)
again at instant 50 changes nothing. -/
theorem c8_session_start_idempotent_witness :
    sampleSession.start 50 = sampleSession :=
  c8_session_start_idempotent sampleSession 50 (by decide)

lemma pausedImpliesStarted_apply (s : SessionTimer) (op : SessionTimer.Op)
    (h : PausedImpliesStarted s) : PausedImpliesStarted (s.apply op) := by
  unfold PausedImpliesStarted at h ⊢
  cases op <;>
    simp only [SessionTimer.apply, SessionTimer.start, SessionTimer.pause,
      SessionTimer.resume, SessionTimer.stop, SessionTimer.reset]
  case start now =>
    split_ifs <;> simp_all
  case pause now =>
    split_ifs with hc
    · simpa using hc.1
    · exact h
  case resume now =>
    rcases h2 : s.paused_time with _ | pt <;> simp_all
  case stop => simp
  case reset => simp

lemma pausedImpliesStarted_run (s : SessionTimer) (ops : List SessionTimer.Op)
    (h : PausedImpliesStarted s) : PausedImpliesStarted (s.run ops) := by
  induction ops generalizing s with
  | nil => exact h
  | cons op rest ih => exact ih (s.apply op) (pausedImpliesStarted_apply s op h)

/-- Claim C10: in every `SessionTimer` state reachable from construction by
any sequence of `start`/`pause`/`resume`/`stop`/`reset` calls, `paused_time`
is set only if `start_time` is set: `is_paused` implies the timer has been
started. -/
theorem c10_paused_implies_started (ops : List SessionTimer.Op) :
    (SessionTimer.init.run ops).is_paused →
    (SessionTimer.init.run ops).start_time.isSome := by
  intro h
  exact pausedImpliesStarted_run SessionTimer.init ops (by simp [SessionTimer.init, PausedImpliesStarted]) (by simpa [SessionTimer.is_paused] using h)

/-- Witness for C10 on the concrete call sequence start at 1 then pause at
2, after which the session is paused and indeed started. -/
theorem c10_paused_implies_started_witness :
    (SessionTimer.init.run [SessionTimer.Op.start 1, SessionTimer.Op.pause 2]).start_time.isSome :=
  c10_paused_implies_started [SessionTimer.Op.start 1, SessionTimer.Op.pause 2] (by decide)

lemma sampleRunning_eq :
    sampleRunning =
      { default_duration_minutes := 5
        duration_minutes := 5
        duration_seconds := 300
        state := .running
        remaining_seconds := 300
        start_time := some 1
        pause_time := none
        elapsed_when_paused := 0
        last_update_time := some 1
        update_interval := 1 } := by
  simp [sampleRunning, CountdownTimer.init, CountdownTimer.start]

lemma sampleCompleted_eq :
    sampleCompleted =
      { default_duration_minutes := 1
        duration_minutes := 1
        duration_seconds := 60
        state := .completed
        remaining_seconds := 0
        start_time := some 1
        pause_time := none
        elapsed_when_paused := 0
        last_update_time := some 1
        update_interval := 1 } := by
  simp [sampleCompleted, CountdownTimer.init, CountdownTimer.start,
    CountdownTimer.update, CountdownTimer.update_run,
    CountdownTimer.throttle_hit]
  norm_num

/-- Claim C2: calling `start` while the state is COMPLETED takes the
fresh-start branch: it returns True, sets `start_time` to the current
instant, sets `elapsed_when_paused` to 0, resets `remaining_seconds` to the
full duration, transitions to RUNNING, and fires `on_start`. -/
theorem c2_start_from_completed_fresh (t : CountdownTimer) (now : ℚ)
    (h : t.state = .completed) :
    (t.start now).2.1 = true ∧
    (t.start now).1.start_time = some now ∧
    (t.start now).1.elapsed_when_paused = 0 ∧
    (t.start now).1.remaining_seconds = (t.duration_seconds : ℚ) ∧
    (t.start now).1.state = .running ∧
    (t.start now).2.2 = [TimerEvent.on_start] := by
  unfold CountdownTimer.start
  rw [h]
  simp

/-- Witness for C2: starting `sampleCompleted` (a reachable COMPLETED
timer) at instant 100 returns True, moves to RUNNING with a fresh clock,
and fires `on_start`. -/
theorem c2_start_from_completed_fresh_witness :
    (sampleCompleted.start 100).2.1 = true ∧
    (sampleCompleted.start 100).1.start_time = some 100 ∧
    (sampleCompleted.start 100).1.elapsed_when_paused = 0 ∧
    (sampleCompleted.start 100).1.remaining_seconds =
      (sampleCompleted.duration_seconds : ℚ) ∧
    (sampleCompleted.start 100).1.state = .running ∧
    (sampleCompleted.start 100).2.2 = [TimerEvent.on_start] :=
  c2_start_from_completed_fresh sampleCompleted 100 (by rw [sampleCompleted_eq])

/-- Counterexample to claim C1 as stated: on the reachable COMPLETED timer
`sampleCompleted`, `start` is not rejected — it returns True and moves the
state out of COMPLETED (to RUNNING). -/
theorem c1_counterexample :
    sampleCompleted.state = TimerState.completed ∧
    (sampleCompleted.start 100).2.1 = true ∧
    (sampleCompleted.start 100).1.state = TimerState.running := by
  rw [sampleCompleted_eq]
  exact ⟨rfl, rfl, rfl⟩

/-- Claim C1 amended: COMPLETED is terminal under `pause`, `update` and
`set_duration` (each returns failure/False and leaves the timer unchanged),
and `reset` moves it to STOPPED; but `start` from COMPLETED is accepted:
it returns True and transitions the state to RUNNING (fresh start). -/
theorem c1_completed_terminal_amended (t : CountdownTimer) (now : ℚ) (m : Int)
    (h : t.state = .completed) :
    (t.pause now).1 = t ∧ (t.pause now).2.1 = false ∧
    (t.update now).1 = t ∧ (t.update now).2.1 = false ∧
    (t.set_duration m).1 = t ∧ (t.set_duration m).2.1 = false ∧
    (t.start now).2.1 = true ∧ (t.start now).1.state = .running ∧
    t.reset.1.state = .stopped := by
  unfold CountdownTimer.pause CountdownTimer.update CountdownTimer.set_duration
    CountdownTimer.start CountdownTimer.reset
  rw [h]
  split_ifs <;> simp_all

/-- Witness for C1 (amended) at the reachable COMPLETED timer
`sampleCompleted`, instant 100, requested duration 5. -/
theorem c1_completed_terminal_amended_witness :
    (sampleCompleted.pause 100).1 = sampleCompleted ∧
    (sampleCompleted.update 100).2.1 = false ∧
    (sampleCompleted.set_duration 5).1 = sampleCompleted ∧
    (sampleCompleted.start 100).1.state = .running ∧
    sampleCompleted.reset.1.state = .stopped := by
  have h := c1_completed_terminal_amended sampleCompleted 100 5
    (by rw [sampleCompleted_eq])
  exact ⟨h.1, h.2.2.2.1, h.2.2.2.2.1, h.2.2.2.2.2.2.2.1, h.2.2.2.2.2.2.2.2⟩

/-- Claim C4: pausing a running timer that started at instant `st` records
`elapsed_when_paused = nowP - st`; resuming at any later instant `nowR`
sets `start_time = nowR - (nowP - st)`, so the elapsed-since-start at the
instant of resume equals the elapsed time at pause and the paused interval
is excluded; in particular for a 300-second countdown paused at elapsed
120 the remaining time computed at the instant of resume is 180. -/
theorem c4_pause_resume_excludes_pause (t : CountdownTimer) (st nowP nowR : ℚ)
    (hrun : t.state = .running) (hst : t.start_time = some st) (hpos : 0 < st) :
    (t.pause nowP).1.state = TimerState.paused ∧
    (t.pause nowP).1.elapsed_when_paused = nowP - st ∧
    ((t.pause nowP).1.start nowR).1.start_time = some (nowR - (nowP - st)) ∧
    nowR - (nowR - (nowP - st)) = nowP - st ∧
    (t.duration_seconds = 300 → nowP - st = 120 →
      max 0 (((((t.pause nowP).1.start nowR).1.duration_seconds : ℚ) -
        (nowR - (nowR - (nowP - st))))) = 180) := by
  have hne : ¬ st = 0 := ne_of_gt hpos
  unfold CountdownTimer.pause CountdownTimer.start
  rw [hrun, hst]
  simp only [hne]
  refine ⟨by simp, by simp, by simp, by ring, ?_⟩
  intro hd he
  have harith : nowR - (nowR - (nowP - st)) = nowP - st := by ring
  simp only [harith, he]
  simp [hd]
  norm_num

/-- Witness for C4: `sampleRunning` (a 300-second countdown started at
instant 1) paused at instant 121 (elapsed 120) and resumed at instant 500
resumes with `start_time = 500 - 120` and remaining time 180 at the
instant of resume. -/
theorem c4_pause_resume_excludes_pause_witness :
    ((sampleRunning.pause 121).1.start 500).1.start_time =
      some (500 - ((121 : ℚ) - 1)) ∧
    max 0 (((((sampleRunning.pause 121).1.start 500).1.duration_seconds : ℚ) -
      (500 - (500 - ((121 : ℚ) - 1))))) = 180 := by
  have h := c4_pause_resume_excludes_pause sampleRunning 1 121 500
    (by rw [sampleRunning_eq]) (by rw [sampleRunning_eq]) (by norm_num)
  exact ⟨h.2.2.1, h.2.2.2.2 (by rw [sampleRunning_eq]) (by norm_num)⟩

/-- Claim C5: `set_duration` succeeds iff the requested minutes lie in
`[1, 60]` and the state is STOPPED (the `isinstance(minutes, int)` guard
is absorbed by the `Int` typing); on success it sets `duration_minutes`,
`duration_seconds = minutes * 60`, resets `remaining_seconds` to the full
duration, fires `on_duration_change`, and leaves every other field
unchanged; on failure it returns False, fires nothing, and changes
nothing. -/
theorem c5_set_duration_spec (t : CountdownTimer) (m : Int) :
    ((t.set_duration m).2.1 = true ↔ 1 ≤ m ∧ m ≤ 60 ∧ t.state = .stopped) ∧
    (1 ≤ m → m ≤ 60 → t.state = .stopped →
      ((t.set_duration m).1.duration_minutes = m ∧
       (t.set_duration m).1.duration_seconds = m * 60 ∧
       (t.set_duration m).1.remaining_seconds = ((m * 60 : Int) : ℚ) ∧
       (t.set_duration m).1.state = t.state ∧
       (t.set_duration m).1.start_time = t.start_time ∧
       (t.set_duration m).1.pause_time = t.pause_time ∧
       (t.set_duration m).1.elapsed_when_paused = t.elapsed_when_paused ∧
       (t.set_duration m).1.last_update_time = t.last_update_time ∧
       (t.set_duration m).2.2 = [TimerEvent.on_duration_change m])) ∧
    (¬ (1 ≤ m ∧ m ≤ 60 ∧ t.state = .stopped) →
      ((t.set_duration m).1 = t ∧ (t.set_duration m).2.1 = false ∧
       (t.set_duration m).2.2 = [])) := by
  unfold CountdownTimer.set_duration
  split_ifs with h1 h2
  · refine ⟨iff_of_false (by simp) ?_, ?_, fun _ => ⟨rfl, rfl, rfl⟩⟩
    · rintro ⟨ha, hb, -⟩
      omega
    · intro ha hb hs
      omega
  · refine ⟨iff_of_false (by simp) ?_, ?_, fun _ => ⟨rfl, rfl, rfl⟩⟩
    · rintro ⟨-, -, hs⟩
      exact h2 hs
    · intro ha hb hs
      exact absurd hs h2
  · have hs : t.state = .stopped := not_ne_iff.mp h2
    refine ⟨iff_of_true rfl ⟨by omega, by omega, hs⟩, ?_, ?_⟩
    · intro ha hb hsx
      exact ⟨rfl, rfl, rfl, rfl, rfl, rfl, rfl, rfl, rfl⟩
    · intro hcon
      exact absurd ⟨by omega, by omega, hs⟩ hcon

/-- Witness for C5: on the freshly constructed 5-minute timer (STOPPED),
`set_duration 10` succeeds and installs a 600-second duration. -/
theorem c5_set_duration_spec_witness :
    ((CountdownTimer.init 5).set_duration 10).2.1 = true ∧
    ((CountdownTimer.init 5).set_duration 10).1.duration_minutes = 10 ∧
    ((CountdownTimer.init 5).set_duration 10).1.duration_seconds = 10 * 60 := by
  have h := c5_set_duration_spec (CountdownTimer.init 5) 10
  exact ⟨h.1.mpr ⟨by decide, by decide, rfl⟩,
    (h.2.1 (by decide) (by decide) rfl).1,
    (h.2.1 (by decide) (by decide) rfl).2.1⟩

namespace CountdownTimer

lemma Inv.mono {t : CountdownTimer} {now nowB : ℚ} (h : Inv t now)
    (hle : now ≤ nowB) : Inv t nowB where
  now_pos := lt_of_lt_of_le h.now_pos hle
  interval_eq := h.interval_eq
  start_bound := fun st hst =>
    ⟨(h.start_bound st hst).1, le_trans (h.start_bound st hst).2 hle⟩
  lu_bound := fun lu hlu =>
    ⟨(h.lu_bound lu hlu).1, le_trans (h.lu_bound lu hlu).2 hle⟩
  elapsed_nonneg := h.elapsed_nonneg
  elapsed_lt := lt_of_lt_of_le h.elapsed_lt hle
  run_start := h.run_start
  comp_rem := h.comp_rem
  rem_range := h.rem_range
  run_rem := fun hr st hst => by
    have := h.run_rem hr st hst
    linarith
  paused_rem := h.paused_rem

lemma inv_init (d : Int) (t0 : ℚ) (h0 : 0 < t0) : Inv (init d) t0 where
  now_pos := h0
  interval_eq := rfl
  start_bound := fun st hst => by simp [init] at hst
  lu_bound := fun lu hlu => by simp [init] at hlu
  elapsed_nonneg := le_refl 0
  elapsed_lt := h0
  run_start := fun hr => by simp [init] at hr
  comp_rem := fun hc => by simp [init] at hc
  rem_range := Or.inl rfl
  run_rem := fun hr => by simp [init] at hr
  paused_rem := fun hp => by simp [init] at hp

lemma inv_set_duration {t : CountdownTimer} {now : ℚ} (m : Int)
    (h : Inv t now) : Inv (t.set_duration m).1 now := by
  unfold CountdownTimer.set_duration
  split_ifs with h1 h2
  · exact h
  · exact h
  · have hs : t.state = .stopped := not_ne_iff.mp h2
    refine { now_pos := h.now_pos, interval_eq := h.interval_eq,
             start_bound := h.start_bound, lu_bound := h.lu_bound,
             elapsed_nonneg := h.elapsed_nonneg, elapsed_lt := h.elapsed_lt,
             rem_range := Or.inl rfl,
             run_start := ?_, comp_rem := ?_, run_rem := ?_, paused_rem := ?_ }
    · intro hr
      have hr2 : t.state = .running := hr
      rw [hs] at hr2
      cases hr2
    · intro hc
      have hc2 : t.state = .completed := hc
      rw [hs] at hc2
      cases hc2
    · intro hr
      have hr2 : t.state = .running := hr
      rw [hs] at hr2
      cases hr2
    · intro hp
      have hp2 : t.state = .paused := hp
      rw [hs] at hp2
      cases hp2

lemma inv_start {t : CountdownTimer} {now : ℚ} (h : Inv t now) :
    Inv (t.start now).1 now := by
  unfold CountdownTimer.start
  split_ifs with h1 h2
  · exact h
  · -- resume from pause
    refine { now_pos := h.now_pos, interval_eq := h.interval_eq,
             elapsed_nonneg := h.elapsed_nonneg, elapsed_lt := h.elapsed_lt,
             run_start := fun _ => rfl, rem_range := h.rem_range,
             start_bound := ?_, lu_bound := ?_, comp_rem := ?_,
             run_rem := ?_, paused_rem := ?_ }
    · intro st hst
      have hst2 : some (now - t.elapsed_when_paused) = some st := hst
      cases hst2
      constructor
      · linarith [h.elapsed_lt]
      · linarith [h.elapsed_nonneg]
    · intro lu hlu
      have hlu2 : some now = some lu := hlu
      cases hlu2
      exact ⟨h.now_pos, le_refl now⟩
    · intro hc
      cases show TimerState.running = TimerState.completed from hc
    · intro hr st hst
      have hst2 : some (now - t.elapsed_when_paused) = some st := hst
      cases hst2
      show (t.duration_seconds : ℚ) - (now - (now - t.elapsed_when_paused)) ≤
        t.remaining_seconds
      have hpr := h.paused_rem h2
      have harith : (t.duration_seconds : ℚ) -
          (now - (now - t.elapsed_when_paused)) =
          (t.duration_seconds : ℚ) - t.elapsed_when_paused := by ring
      rw [harith]
      exact hpr
    · intro hp
      cases show TimerState.running = TimerState.paused from hp
  · -- fresh start
    refine { now_pos := h.now_pos, interval_eq := h.interval_eq,
             elapsed_nonneg := le_refl 0, elapsed_lt := h.now_pos,
             run_start := fun _ => rfl, rem_range := Or.inl rfl,
             start_bound := ?_, lu_bound := ?_, comp_rem := ?_,
             run_rem := ?_, paused_rem := ?_ }
    · intro st hst
      have hst2 : some now = some st := hst
      cases hst2
      exact ⟨h.now_pos, le_refl now⟩
    · intro lu hlu
      have hlu2 : some now = some lu := hlu
      cases hlu2
      exact ⟨h.now_pos, le_refl now⟩
    · intro hc
      cases show TimerState.running = TimerState.completed from hc
    · intro hr st hst
      have hst2 : some now = some st := hst
      cases hst2
      show (t.duration_seconds : ℚ) - (now - now) ≤ (t.duration_seconds : ℚ)
      have harith : (t.duration_seconds : ℚ) - (now - now) =
          (t.duration_seconds : ℚ) := by ring
      rw [harith]
    · intro hp
      cases show TimerState.running = TimerState.paused from hp

lemma inv_pause {t : CountdownTimer} {now : ℚ} (h : Inv t now) :
    Inv (t.pause now).1 now := by
  unfold CountdownTimer.pause
  split_ifs with h1
  · exact h
  · have hrun : t.state = .running := not_ne_iff.mp h1
    have hsome := h.run_start hrun
    rcases hst : t.start_time with _ | st
    · rw [hst] at hsome
      simp at hsome
    · have hb := h.start_bound st hst
      have hne : ¬ st = 0 := ne_of_gt hb.1
      simp only [hst, hne, if_false]
      refine { now_pos := h.now_pos, interval_eq := h.interval_eq,
               rem_range := h.rem_range,
               start_bound := ?_, lu_bound := ?_,
               elapsed_nonneg := ?_, elapsed_lt := ?_,
               run_start := ?_, comp_rem := ?_,
               run_rem := ?_, paused_rem := ?_ }
      · intro st2 hst2
        have hst3 : some st = some st2 := hst2
        cases hst3
        exact hb
      · intro lu hlu
        have hlu2 : t.last_update_time = some lu := hlu
        exact h.lu_bound lu hlu2
      · show (0 : ℚ) ≤ now - st
        linarith [hb.2]
      · show now - st < now
        linarith [hb.1]
      · intro hr
        cases show TimerState.paused = TimerState.running from hr
      · intro hc
        cases show TimerState.paused = TimerState.completed from hc
      · intro hr
        cases show TimerState.paused = TimerState.running from hr
      · intro _
        show (t.duration_seconds : ℚ) - (now - st) ≤ t.remaining_seconds
        exact h.run_rem hrun st hst

lemma inv_reset {t : CountdownTimer} {now : ℚ} (h : Inv t now) :
    Inv t.reset.1 now := by
  unfold CountdownTimer.reset
  refine { now_pos := h.now_pos, interval_eq := h.interval_eq,
           elapsed_nonneg := le_refl 0, elapsed_lt := h.now_pos,
           rem_range := Or.inl rfl,
           start_bound := ?_, lu_bound := ?_, run_start := ?_,
           comp_rem := ?_, run_rem := ?_, paused_rem := ?_ }
  · intro st hst
    cases show (none : Option ℚ) = some st from hst
  · intro lu hlu
    cases show (none : Option ℚ) = some lu from hlu
  · intro hr
    cases show TimerState.stopped = TimerState.running from hr
  · intro hc
    cases show TimerState.stopped = TimerState.completed from hc
  · intro hr
    cases show TimerState.stopped = TimerState.running from hr
  · intro hp
    cases show TimerState.stopped = TimerState.paused from hp

lemma inv_update {t : CountdownTimer} {now : ℚ} (h : Inv t now) :
    Inv (t.update now).1 now := by
  unfold CountdownTimer.update
  split_ifs with h1 h2
  · exact h
  · exact h
  · have hrun : t.state = .running := not_ne_iff.mp h1
    split
    · exact h
    next st hst =>
      have hb := h.start_bound st hst
      split_ifs with h3
      · exact h
      unfold CountdownTimer.update_run
      split_ifs with h4
      · -- completion branch
        refine { now_pos := h.now_pos, interval_eq := h.interval_eq,
                 elapsed_nonneg := h.elapsed_nonneg,
                 elapsed_lt := h.elapsed_lt,
                 comp_rem := fun _ => rfl,
                 start_bound := ?_, lu_bound := ?_, run_start := ?_,
                 rem_range := ?_, run_rem := ?_, paused_rem := ?_ }
        · intro st2 hst2
          have hst3 : t.start_time = some st2 := hst2
          exact h.start_bound st2 hst3
        · intro lu hlu
          have hlu2 : t.last_update_time = some lu := hlu
          exact h.lu_bound lu hlu2
        · intro hr
          cases show TimerState.completed = TimerState.running from hr
        · rcases le_or_lt 0 ((t.duration_seconds : ℚ)) with hd | hd
          · exact Or.inr (Or.inl ⟨le_refl 0, hd⟩)
          · exact Or.inr (Or.inr ⟨le_of_lt hd, rfl⟩)
        · intro hr
          cases show TimerState.completed = TimerState.running from hr
        · intro hp
          cases show TimerState.completed = TimerState.paused from hp
      · -- tick branch
        have hpos : (0 : ℚ) <
            max 0 ((t.duration_seconds : ℚ) - (now - st)) :=
          lt_of_not_le h4
        have hlin : (0 : ℚ) < (t.duration_seconds : ℚ) - (now - st) := by
          by_contra hc
          push_neg at hc
          rw [max_eq_left hc] at hpos
          exact lt_irrefl 0 hpos
        refine { now_pos := h.now_pos, interval_eq := h.interval_eq,
                 elapsed_nonneg := h.elapsed_nonneg,
                 elapsed_lt := h.elapsed_lt,
                 start_bound := ?_, lu_bound := ?_, run_start := ?_,
                 comp_rem := ?_, rem_range := ?_, run_rem := ?_,
                 paused_rem := ?_ }
        · intro st2 hst2
          have hst3 : t.start_time = some st2 := hst2
          exact h.start_bound st2 hst3
        · intro lu hlu
          have hlu2 : some now = some lu := hlu
          cases hlu2
          exact ⟨h.now_pos, le_refl now⟩
        · intro _
          show t.start_time.isSome
          rw [hst]
          rfl
        · intro hc
          have hc2 : t.state = .completed := hc
          rw [hrun] at hc2
          cases hc2
        · refine Or.inr (Or.inl ⟨le_max_left 0 _, ?_⟩)
          show max 0 ((t.duration_seconds : ℚ) - (now - st)) ≤
            (t.duration_seconds : ℚ)
          have hd : (0 : ℚ) ≤ (t.duration_seconds : ℚ) := by
            linarith [hb.2]
          exact max_le hd (by linarith [hb.2])
        · intro hr st2 hst2
          have hst3 : t.start_time = some st2 := hst2
          rw [hst] at hst3
          cases hst3
          show (t.duration_seconds : ℚ) - (now - st) ≤
            max 0 ((t.duration_seconds : ℚ) - (now - st))
          exact le_max_right 0 _
        · intro hp
          have hp2 : t.state = .paused := hp
          rw [hrun] at hp2
          cases hp2

lemma inv_of_reach {t : CountdownTimer} {now : ℚ} (h : CReach t now) :
    Inv t now := by
  induction h with
  | construct d t0 h0 => exact inv_init d t0 h0
  | tick_clock h hle ih => exact ih.mono hle
  | set_duration_step m h ih => exact inv_set_duration m ih
  | start_step h ih => exact inv_start ih
  | pause_step h ih => exact inv_pause ih
  | reset_step h ih => exact inv_reset ih
  | update_step h ih => exact inv_update ih

lemma progress_le_100 (t : CountdownTimer) :
    t.get_progress_percentage ≤ 100 := by
  unfold CountdownTimer.get_progress_percentage
  split_ifs
  · exact le_refl 100
  · exact min_le_left 100 _

lemma progress_of_rem_zero (t : CountdownTimer)
    (h : t.remaining_seconds = 0) : t.get_progress_percentage = 100 := by
  unfold CountdownTimer.get_progress_percentage
  split_ifs with hd
  · rfl
  · have hdne : (t.duration_seconds : ℚ) ≠ 0 := Int.cast_ne_zero.mpr hd
    rw [h, sub_zero, div_self hdne, one_mul]
    exact min_self 100

lemma progress_le_update {t : CountdownTimer} {now nowA : ℚ} (h : Inv t now)
    (hle : now ≤ nowA) :
    t.get_progress_percentage ≤ ((t.update nowA).1).get_progress_percentage := by
  unfold CountdownTimer.update
  split_ifs with h1 h2
  · exact le_refl _
  · exact le_refl _
  · have hrun : t.state = .running := not_ne_iff.mp h1
    split
    · exact le_refl _
    next st hst =>
      have hb := h.start_bound st hst
      split_ifs with h3
      · exact le_refl _
      unfold CountdownTimer.update_run
      split_ifs with h4
      · -- completion: the new progress is exactly 100
        have hnew : (({ t with
            remaining_seconds := 0, state := TimerState.completed } :
              CountdownTimer)).get_progress_percentage = 100 :=
          progress_of_rem_zero _ rfl
        calc t.get_progress_percentage ≤ 100 := progress_le_100 t
          _ = _ := hnew.symm
      · -- tick: remaining does not increase, so progress does not decrease
        have hpos : (0 : ℚ) <
            max 0 ((t.duration_seconds : ℚ) - (nowA - st)) := lt_of_not_le h4
        have hlin : (0 : ℚ) < (t.duration_seconds : ℚ) - (nowA - st) := by
          by_contra hc
          push_neg at hc
          rw [max_eq_left hc] at hpos
          exact lt_irrefl 0 hpos
        have hst_le : st ≤ nowA := le_trans hb.2 hle
        have hdpos : (0 : ℚ) < (t.duration_seconds : ℚ) := by linarith
        have hrnew_le : max 0 ((t.duration_seconds : ℚ) - (nowA - st)) ≤
            t.remaining_seconds := by
          have h5 := h.run_rem hrun st hst
          have h6 : (t.duration_seconds : ℚ) - (nowA - st) ≤
              t.remaining_seconds := by linarith
          have h7 : (0 : ℚ) ≤ t.remaining_seconds := by
            rcases h.rem_range with hr | ⟨hr0, _⟩ | ⟨hd0, _⟩
            · rw [hr]
              linarith
            · exact hr0
            · linarith
          exact max_le h7 h6
        have hdne : ¬ t.duration_seconds = 0 := by
          intro hz
          rw [hz] at hdpos
          norm_num at hdpos
        unfold CountdownTimer.get_progress_percentage
        dsimp only
        split_ifs
        refine min_le_min (le_refl 100) ?_
        refine mul_le_mul_of_nonneg_right ?_ (by norm_num)
        refine (div_le_div_iff_of_pos_right hdpos).mpr ?_
        exact sub_le_sub_left hrnew_le _

end CountdownTimer

/-- Claim C3: `update` behaves as follows.  When the state is not RUNNING
it changes nothing and returns `state ≠ COMPLETED`.  When RUNNING and
called within 1 second (the `update_interval`) of `last_update_time` it
changes nothing and returns True.  Otherwise (RUNNING, unthrottled, with
`start_time = some st`) it computes `max(0, duration_seconds - (now -
st))`: if that is 0 it sets `remaining_seconds` to 0, transitions to
COMPLETED, fires `on_complete` and returns False; otherwise it stores the
new remaining value, fires `on_tick` with the `(minutes, seconds)` split
of the updated `remaining_seconds`, stamps `last_update_time := now`, and
returns True.  Stated over states reachable at clock instant `now`. -/
theorem c3_update_spec (t : CountdownTimer) (now : ℚ)
    (hre : CountdownTimer.CReach t now) :
    (t.state ≠ .running →
      t.update now = (t, decide (t.state ≠ .completed), [])) ∧
    (t.state = .running → ∀ lu, t.last_update_time = some lu →
      now - lu < 1 → t.update now = (t, true, [])) ∧
    (t.state = .running →
      (∀ lu, t.last_update_time = some lu → 1 ≤ now - lu) →
      ∀ st, t.start_time = some st →
      ((max 0 ((t.duration_seconds : ℚ) - (now - st)) = 0 →
        t.update now =
          ({ t with remaining_seconds := 0, state := .completed },
           false, [TimerEvent.on_complete])) ∧
      (max 0 ((t.duration_seconds : ℚ) - (now - st)) ≠ 0 →
        t.update now =
          ({ t with
              remaining_seconds :=
                max 0 ((t.duration_seconds : ℚ) - (now - st)),
              last_update_time := some now },
           true,
           [TimerEvent.on_tick
             ({ t with
                remaining_seconds := max 0 ((t.duration_seconds : ℚ) - (now - st)) } :
                  CountdownTimer).get_remaining_time.1
             ({ t with
                remaining_seconds := max 0 ((t.duration_seconds : ℚ) - (now - st)) } :
                  CountdownTimer).get_remaining_time.2])))) := by
  have hInv := CountdownTimer.inv_of_reach hre
  refine ⟨?_, ?_, ?_⟩
  · intro h1
    unfold CountdownTimer.update
    rw [if_pos h1]
  · intro hrun lu hlu hlt
    have hlupos := (hInv.lu_bound lu hlu).1
    have hthr : t.throttle_hit now = true := by
      unfold CountdownTimer.throttle_hit
      rw [hlu, hInv.interval_eq]
      simp only [Bool.and_eq_true, decide_eq_true_eq]
      exact ⟨ne_of_gt hlupos, hlt⟩
    unfold CountdownTimer.update
    rw [if_neg (not_ne_iff.mpr hrun), if_pos hthr]
  · intro hrun hnothr st hst
    have hthr : t.throttle_hit now = false := by
      unfold CountdownTimer.throttle_hit
      rcases hlu : t.last_update_time with _ | lu
      · rfl
      · have h1le := hnothr lu hlu
        rw [hInv.interval_eq]
        have hfalse : (now - lu < 1) = False := eq_false (not_lt.mpr h1le)
        simp [hfalse]
    have hstne : ¬ st = 0 := ne_of_gt (hInv.start_bound st hst).1
    have hguards : t.update now = t.update_run now st := by
      unfold CountdownTimer.update
      rw [if_neg (not_ne_iff.mpr hrun), hthr, if_neg (by simp), hst]
      show (if st = 0 then (t, true, ([] : List TimerEvent))
        else t.update_run now st) = t.update_run now st
      rw [if_neg hstne]
    constructor
    · intro hmax
      rw [hguards]
      unfold CountdownTimer.update_run
      rw [if_pos (le_of_eq hmax)]
    · intro hmax
      rw [hguards]
      unfold CountdownTimer.update_run
      rw [if_neg (fun hc => hmax (le_antisymm hc (le_max_left 0 _)))]

/-- Witness for C3 on concrete reachable states: an update of
`sampleRunning` at instant 3/2 (within 1 second of `last_update_time = 1`)
is a throttled no-op returning True, and an update at instant 302 (past
the 300-second duration) completes the timer, firing `on_complete` and
returning False. -/
theorem c3_update_spec_witness :
    sampleRunning.update (3 / 2) = (sampleRunning, true, []) ∧
    sampleRunning.update 302 =
      ({ sampleRunning with remaining_seconds := 0, state := .completed },
       false, [TimerEvent.on_complete]) := by
  have hre1 : CountdownTimer.CReach sampleRunning 1 :=
    CountdownTimer.CReach.start_step (CountdownTimer.CReach.construct 5 1 one_pos)
  have hreA : CountdownTimer.CReach sampleRunning (3 / 2) :=
    CountdownTimer.CReach.tick_clock hre1 (by norm_num)
  have hreB : CountdownTimer.CReach sampleRunning 302 :=
    CountdownTimer.CReach.tick_clock hre1 (by norm_num)
  constructor
  · exact (c3_update_spec sampleRunning (3 / 2) hreA).2.1
      (by rw [sampleRunning_eq]) 1 (by rw [sampleRunning_eq]) (by norm_num)
  · have h := ((c3_update_spec sampleRunning 302 hreB).2.2
      (by rw [sampleRunning_eq])
      (by
        intro lu hlu
        rw [sampleRunning_eq] at hlu
        have hlu2 : some (1 : ℚ) = some lu := hlu
        cases hlu2
        norm_num)
      1 (by rw [sampleRunning_eq])).1
    refine (h ?_)
    rw [sampleRunning_eq]
    show max 0 (((300 : Int) : ℚ) - (302 - 1)) = 0
    rw [max_eq_left (by norm_num)]

/-- Claim C6: `get_progress_percentage` equals `100 * (duration_seconds -
remaining_seconds) / duration_seconds` clamped to `[0, 100]` (duration 0
defined as 100%), is monotonically non-decreasing across successive
`update` calls, and equals exactly 100 whenever the state is COMPLETED —
all over states reachable at clock instant `now`, with the successive
updates made at instants `nowA ≤ nowB` no earlier than `now`. -/
theorem c6_progress_spec (t : CountdownTimer) (now nowA nowB : ℚ)
    (hre : CountdownTimer.CReach t now) (h1 : now ≤ nowA) (h2 : nowA ≤ nowB) :
    t.get_progress_percentage = CountdownTimer.progress_spec t ∧
    (t.state = .completed → t.get_progress_percentage = 100) ∧
    t.get_progress_percentage ≤
      ((t.update nowA).1).get_progress_percentage ∧
    ((t.update nowA).1).get_progress_percentage ≤
      (((t.update nowA).1.update nowB).1).get_progress_percentage := by
  have hInv := CountdownTimer.inv_of_reach hre
  refine ⟨?_, ?_, ?_, ?_⟩
  · unfold CountdownTimer.get_progress_percentage CountdownTimer.progress_spec
    split_ifs with hd
    · rfl
    · have hdne : (t.duration_seconds : ℚ) ≠ 0 := Int.cast_ne_zero.mpr hd
      rw [eq_comm]
      refine max_eq_right (le_min (by norm_num) ?_)
      rcases hInv.rem_range with hr | ⟨hr0, hrd⟩ | ⟨hd0, hr0⟩
      · rw [hr, sub_self, zero_div, zero_mul]
      · have hdpos : (0 : ℚ) < (t.duration_seconds : ℚ) :=
          lt_of_le_of_ne (le_trans hr0 hrd) (Ne.symm hdne)
        have hnum : (0 : ℚ) ≤ (t.duration_seconds : ℚ) - t.remaining_seconds := by
          linarith
        positivity
      · rw [hr0, sub_zero, div_self hdne]
        norm_num
  · intro hc
    exact CountdownTimer.progress_of_rem_zero t (hInv.comp_rem hc)
  · exact CountdownTimer.progress_le_update hInv h1
  · exact CountdownTimer.progress_le_update
      (CountdownTimer.inv_of_reach
        (CountdownTimer.CReach.update_step
          (CountdownTimer.CReach.tick_clock hre h1))) h2

/-- Witness for C6: for the reachable `sampleRunning` at instant 1 with
updates at instants 2 and 3, the progress equals its clamped-spec reading
and is non-decreasing across the two updates; and the reachable
`sampleCompleted` timer reports progress exactly 100. -/
theorem c6_progress_spec_witness :
    sampleRunning.get_progress_percentage =
      CountdownTimer.progress_spec sampleRunning ∧
    sampleRunning.get_progress_percentage ≤
      ((sampleRunning.update 2).1).get_progress_percentage ∧
    ((sampleRunning.update 2).1).get_progress_percentage ≤
      (((sampleRunning.update 2).1.update 3).1).get_progress_percentage ∧
    sampleCompleted.get_progress_percentage = 100 := by
  have hre1 : CountdownTimer.CReach sampleRunning 1 :=
    CountdownTimer.CReach.start_step (CountdownTimer.CReach.construct 5 1 one_pos)
  have h := c6_progress_spec sampleRunning 1 2 3 hre1 (by norm_num) (by norm_num)
  have hreC : CountdownTimer.CReach sampleCompleted 62 :=
    CountdownTimer.CReach.update_step
      (CountdownTimer.CReach.tick_clock
        (CountdownTimer.CReach.start_step
          (CountdownTimer.CReach.construct 1 1 one_pos)) (by norm_num))
  have hC := c6_progress_spec sampleCompleted 62 62 62 hreC le_rfl le_rfl
  exact ⟨h.1, h.2.2.1, h.2.2.2, hC.2.1 (by rw [sampleCompleted_eq])⟩

end BrowserClickCounter
